import Mathlib

/-!
# Verification of the stratum JSON-RPC client core

Shallow embedding of the repository's three source files
(`stratum/lib.rs`, `stratum/error.rs`, `stratum/client.rs`):
the wire types `Request` / `Response` / `RpcError`, the error taxonomy,
the serde-derived serialization of the wire types (modelled at the
JSON-value level; the text layer is the serialization collaborator and
is treated as a faithful bijection on JSON values), the standard-error
helpers, and the `Client` with `build_request`, `last_nonce` and
`send_request` including its retry-on-aborted-connection policy.

JSON values are modelled with exact integer numbers and
association-list objects, which covers every value this library
constructs (ids and error codes are integers).
-/

namespace Stratum

/-- A JSON value (`serde_json::value::Value`), with numbers modelled as
exact integers and objects as association lists in field order. -/
inductive Json where
  | null
  | bool (b : Bool)
  | num (n : Int)
  | str (s : String)
  | arr (elems : List Json)
  | obj (members : List (String × Json))

mutual

/-- Decidable equality on JSON values (`PartialEq for Value`). -/
def Json.decEq : (a b : Json) → Decidable (a = b)
  | .null, .null => .isTrue rfl
  | .null, .bool _ => .isFalse (fun h => nomatch h)
  | .null, .num _ => .isFalse (fun h => nomatch h)
  | .null, .str _ => .isFalse (fun h => nomatch h)
  | .null, .arr _ => .isFalse (fun h => nomatch h)
  | .null, .obj _ => .isFalse (fun h => nomatch h)
  | .bool _, .null => .isFalse (fun h => nomatch h)
  | .bool a, .bool b =>
    if h : a = b then .isTrue (congrArg Json.bool h)
    else .isFalse (by intro he; cases he; exact h rfl)
  | .bool _, .num _ => .isFalse (fun h => nomatch h)
  | .bool _, .str _ => .isFalse (fun h => nomatch h)
  | .bool _, .arr _ => .isFalse (fun h => nomatch h)
  | .bool _, .obj _ => .isFalse (fun h => nomatch h)
  | .num _, .null => .isFalse (fun h => nomatch h)
  | .num _, .bool _ => .isFalse (fun h => nomatch h)
  | .num a, .num b =>
    if h : a = b then .isTrue (congrArg Json.num h)
    else .isFalse (by intro he; cases he; exact h rfl)
  | .num _, .str _ => .isFalse (fun h => nomatch h)
  | .num _, .arr _ => .isFalse (fun h => nomatch h)
  | .num _, .obj _ => .isFalse (fun h => nomatch h)
  | .str _, .null => .isFalse (fun h => nomatch h)
  | .str _, .bool _ => .isFalse (fun h => nomatch h)
  | .str _, .num _ => .isFalse (fun h => nomatch h)
  | .str a, .str b =>
    if h : a = b then .isTrue (congrArg Json.str h)
    else .isFalse (by intro he; cases he; exact h rfl)
  | .str _, .arr _ => .isFalse (fun h => nomatch h)
  | .str _, .obj _ => .isFalse (fun h => nomatch h)
  | .arr _, .null => .isFalse (fun h => nomatch h)
  | .arr _, .bool _ => .isFalse (fun h => nomatch h)
  | .arr _, .num _ => .isFalse (fun h => nomatch h)
  | .arr _, .str _ => .isFalse (fun h => nomatch h)
  | .arr xs, .arr ys =>
    match Json.decEqList xs ys with
    | .isTrue h => .isTrue (congrArg Json.arr h)
    | .isFalse h => .isFalse (by intro he; cases he; exact h rfl)
  | .arr _, .obj _ => .isFalse (fun h => nomatch h)
  | .obj _, .null => .isFalse (fun h => nomatch h)
  | .obj _, .bool _ => .isFalse (fun h => nomatch h)
  | .obj _, .num _ => .isFalse (fun h => nomatch h)
  | .obj _, .str _ => .isFalse (fun h => nomatch h)
  | .obj _, .arr _ => .isFalse (fun h => nomatch h)
  | .obj xs, .obj ys =>
    match Json.decEqMembers xs ys with
    | .isTrue h => .isTrue (congrArg Json.obj h)
    | .isFalse h => .isFalse (by intro he; cases he; exact h rfl)

/-- Decidable equality on lists of JSON values. -/
def Json.decEqList : (xs ys : List Json) → Decidable (xs = ys)
  | [], [] => .isTrue rfl
  | [], _ :: _ => .isFalse (fun h => nomatch h)
  | _ :: _, [] => .isFalse (fun h => nomatch h)
  | x :: xs, y :: ys =>
    match Json.decEq x y with
    | .isFalse h => .isFalse (by intro he; cases he; exact h rfl)
    | .isTrue h1 =>
      match Json.decEqList xs ys with
      | .isTrue h2 => .isTrue (by rw [h1, h2])
      | .isFalse h2 => .isFalse (by intro he; cases he; exact h2 rfl)

/-- Decidable equality on JSON object member lists. -/
def Json.decEqMembers : (xs ys : List (String × Json)) → Decidable (xs = ys)
  | [], [] => .isTrue rfl
  | [], _ :: _ => .isFalse (fun h => nomatch h)
  | _ :: _, [] => .isFalse (fun h => nomatch h)
  | (k1, v1) :: xs, (k2, v2) :: ys =>
    if hk : k1 = k2 then
      match Json.decEq v1 v2 with
      | .isFalse h => .isFalse (by intro he; cases he; exact h rfl)
      | .isTrue hv =>
        match Json.decEqMembers xs ys with
        | .isTrue ht => .isTrue (by rw [hk, hv, ht])
        | .isFalse ht => .isFalse (by intro he; cases he; exact ht rfl)
    else .isFalse (by intro he; cases he; exact hk rfl)

end

instance : DecidableEq Json := Json.decEq

/-- A Stratum request object (`lib.rs`, struct `Request`). -/
structure Request where
  method : String
  params : List Json
  id : Json
deriving DecidableEq

/-- A JSONRPC error object (`error.rs`, struct `RpcError`).
`code` is an `i32` in Rust; modelled as `Int`, with the `i32` range
invariant stated where it matters. -/
structure RpcError where
  code : Int
  message : String
  data : Option Json
deriving DecidableEq

/-- A Stratum response object (`lib.rs`, struct `Response`). -/
structure Response where
  result : Option Json
  error : Option RpcError
  id : Json
deriving DecidableEq

/-! ## Error taxonomy (`error.rs`)

The payloads of `Error::Json`, `Error::Hyper` and `Error::Io` are library
error values whose internals this crate never inspects beyond
`io::Error::kind()`; they are modelled by the one observation the code
makes (the I/O error kind) plus an opaque tag for the rest. -/

/-- `std::io::ErrorKind`, as observed by `send_request` (line 85): only
`ConnectionAborted` is distinguished; every other kind is opaque. -/
inductive IoErrorKind where
  | ConnectionAborted
  | Other (tag : Nat)
deriving DecidableEq

/-- `hyper::error::Error`: an I/O transport error carrying its kind, or any
other hyper failure (opaque). -/
inductive HyperError where
  | Io (k : IoErrorKind)
  | Other (tag : Nat)
deriving DecidableEq

/-- The library error enum (`error.rs` 31-44). The `serde_json` payload of
`Json` is opaque (never inspected) and is dropped in the model. -/
inductive Error where
  | Json
  | Hyper (e : HyperError)
  | Rpc (e : RpcError)
  | Io (k : IoErrorKind)
  | NoErrorOrResult
  | NonceMismatch
deriving DecidableEq

/-! ## Serde-derived serialization of the wire types

The `#[derive(Serialize, Deserialize)]` on `Request`, `Response` and
`RpcError`, modelled at the JSON-value level (the text encoding is the
serialization collaborator, a faithful bijection on values).
Serde derive semantics embedded here: fields serialize in declaration
order; `Option` fields serialize `None` as `null` and `Some v` as the
serialization of `v`; on deserialization an object is required, unknown
fields are ignored, a missing non-`Option` field is an error, a missing
`Option` field defaults to `None`, and `null` decodes into an `Option`
field as `None`. -/

/-- Serde serialization of an `Option<Value>` field. -/
def optValueToJson : Option Json → Json
  | none => .null
  | some v => v

/-- Serde serialization of `RpcError` (fields `code`, `message`, `data`). -/
def RpcError.toJson (e : RpcError) : Json :=
  .obj [("code", .num e.code), ("message", .str e.message),
        ("data", optValueToJson e.data)]

/-- Serde serialization of `Response` (fields `result`, `error`, `id`). -/
def Response.toJson (r : Response) : Json :=
  .obj [("result", optValueToJson r.result),
        ("error", match r.error with | none => .null | some e => e.toJson),
        ("id", r.id)]

/-- Serde serialization of `Request` (fields `method`, `params`, `id`). -/
def Request.toJson (r : Request) : Json :=
  .obj [("method", .str r.method), ("params", .arr r.params), ("id", r.id)]

/-- First binding of a field name in a JSON object's member list. -/
def lookupField : List (String × Json) → String → Option Json
  | [], _ => none
  | (k, v) :: rest, name => if k = name then some v else lookupField rest name

/-- Serde deserialization of an `Option<Value>` field from the field's
binding: missing field or `null` is `None`, anything else `Some`.
This step never fails. -/
def decodeOptionValue : Option Json → Option Json
  | none => none
  | some .null => none
  | some v => some v

/-- Serde deserialization of `RpcError`: requires an object with an integer
`code` in `i32` range and a string `message`; `data` is optional. -/
def RpcError.fromJson : Json → Option RpcError
  | .obj fields =>
    match lookupField fields "code", lookupField fields "message" with
    | some (.num n), some (.str m) =>
      if -(2 ^ 31) ≤ n ∧ n < 2 ^ 31 then
        some ⟨n, m, decodeOptionValue (lookupField fields "data")⟩
      else none
    | _, _ => none
  | _ => none

/-- Serde deserialization of the `Option<RpcError>` field `error`: missing
or `null` is `None`; any other value must decode as an `RpcError`. -/
def decodeOptionRpcError : Option Json → Option (Option RpcError)
  | none => some none
  | some .null => some none
  | some v =>
    match RpcError.fromJson v with
    | some e => some (some e)
    | none => none

/-- Serde deserialization of `Response`: requires an object with an `id`
field; `result` and `error` are optional. -/
def Response.fromJson : Json → Option Response
  | .obj fields =>
    match lookupField fields "id" with
    | none => none
    | some idv =>
      match decodeOptionRpcError (lookupField fields "error") with
      | none => none
      | some err =>
        some ⟨decodeOptionValue (lookupField fields "result"), err, idv⟩
  | _ => none

/-! ## Response accessors (`lib.rs` 64-89) -/

/-- `Response::into_result` (`lib.rs` 66-74), at `T = Value`, where the
`serde_json::value::from_value` conversion is the identity and infallible. -/
def Response.into_result (r : Response) : Except Error Json :=
  match r.error with
  | some e => .error (.Rpc e)
  | none =>
    match r.result with
    | some res => .ok res
    | none => .error .NoErrorOrResult

/-- `Response::check_error` (`lib.rs` 77-83). -/
def Response.check_error (r : Response) : Except Error Unit :=
  match r.error with
  | some e => .error (.Rpc e)
  | none => .ok ()

/-- `Response::is_none` (`lib.rs` 86-88). -/
def Response.is_none (r : Response) : Bool := r.result.isNone

/-! ## Standard-error helpers (`error.rs` 126-211) -/

/-- Standard JSON-RPC error conditions (`error.rs`, enum `StandardError`). -/
inductive StandardError where
  | ParseError
  | InvalidRequest
  | MethodNotFound
  | InvalidParams
  | InternalError
deriving DecidableEq

/-- `standard_error` (`error.rs` 153-191). -/
def standard_error (code : StandardError) (data : Option Json) : RpcError :=
  match code with
  | .ParseError => { code := -32700, message := "Parse error", data := data }
  | .InvalidRequest => { code := -32600, message := "Invalid Request", data := data }
  | .MethodNotFound => { code := -32601, message := "Method not found", data := data }
  | .InvalidParams => { code := -32602, message := "Invalid params", data := data }
  | .InternalError => { code := -32603, message := "Internal error", data := data }

/-- `result_to_response` (`error.rs` 194-211). Rust's
`Result<Value, RpcError>` is `Except RpcError Json`. -/
def result_to_response (result : Except RpcError Json) (id : Json) : Response :=
  match result with
  | .ok data => { result := some data, error := none, id := id }
  | .error err => { result := none, error := some err, id := id }

/-! ## Client (`client.rs`)

The `Client`'s hyper handle is replaced by an explicit `Transport`
oracle giving the outcome of each successive POST attempt of one
`send_request` call; the `Arc<Mutex<u64>>` nonce is a plain counter in
this sequential model (mutation becomes explicit state passing), kept
in `u64` range with an explicit modulus. -/

/-- The `u64` modulus for the nonce counter. -/
def u64Size : Nat := 2 ^ 64

/-- A handle to a remote JSONRPC server (`client.rs`, struct `Client`). -/
structure Client where
  url : String
  user : Option String
  pass : Option String
  nonce : Nat
deriving DecidableEq

/-- `Client::new` (`client.rs` 46-57). The debug assertion
(`pass.is_none() || user.is_some()`) is debug-only and does not affect
the constructed value. -/
def Client.new (url : String) (user : Option String) (pass : Option String) : Client :=
  { url := url, user := user, pass := pass, nonce := 0 }

/-- An HTTP Basic Authorization header (`hyper::header::Basic`). -/
structure Basic where
  username : String
  password : Option String
deriving DecidableEq

/-- The header set `send_request` builds (`client.rs` 65-71): an
`Authorization Basic` header when a username is configured, nothing
otherwise. `headers.clone()` for the retry is the same value. -/
def Client.requestHeaders (c : Client) : Option Basic :=
  match c.user with
  | some u => some { username := u, password := c.pass }
  | none => none

/-- The parse outcome of a response body's text: not valid JSON, or the
JSON value it denotes. Feeds `serde_json::from_str` (line 107). -/
inductive BodyText where
  | invalid
  | value (v : Json)
deriving DecidableEq

/-- The readable stream a successful POST returns: reading it to
completion (`read_to_string`, line 104) yields the body text or an I/O
error. -/
structure HttpStream where
  readBody : Except IoErrorKind BodyText

/-- The HTTP transport collaborator (`hyper::client::Client`): the outcome
of the n-th POST attempt of a single `send_request` call, as a function
of the attempt index, target URL, header set and serialized body. -/
structure Transport where
  post : Nat → String → Option Basic → Json → Except HyperError HttpStream

/-- Lines 101-112 of `client.rs`: read the whole body (ignoring the HTTP
status), decode it into a `Response`, and check the nonce. The drain of
the stream (line 105) has no observable effect here. -/
def Client.processStream (request : Request) (s : HttpStream) : Except Error Response :=
  match s.readBody with
  | .error e => .error (.Io e)
  | .ok .invalid => .error .Json
  | .ok (.value v) =>
    match Response.fromJson v with
    | none => .error .Json
    | some response =>
      if response.id ≠ request.id then .error .NonceMismatch
      else .ok response

/-- `Client::send_request` (`client.rs` 60-113). `serde_json::to_string`
(line 62) cannot fail on these types and is the (total) serialization
`Request.toJson`; the post/retry match mirrors lines 76-99. The client
value is threaded through to state what the call does to it. -/
def Client.send_request (c : Client) (t : Transport) (request : Request) :
    Except Error Response × Client :=
  let request_json := request.toJson
  let headers := c.requestHeaders
  let retry_headers := headers
  let stream : Except Error HttpStream :=
    match t.post 0 c.url headers request_json with
    | .ok s => .ok s
    | .error (.Io e) =>
      if e = .ConnectionAborted then
        match t.post 1 c.url retry_headers request_json with
        | .ok s => .ok s
        | .error e2 => .error (.Hyper e2)
      else .error (.Hyper (.Io e))
    | .error e => .error (.Hyper e)
  match stream with
  | .error err => (.error err, c)
  | .ok s => (Client.processStream request s, c)

/-- `Client::build_request` (`client.rs` 116-124): increment the nonce
under the lock and use the new value as the numeric id. The `u64`
increment wraps at `2^64` (release semantics). -/
def Client.build_request (c : Client) (name : String) (params : List Json) :
    Request × Client :=
  let nonce := (c.nonce + 1) % u64Size
  ({ method := name, params := params, id := .num (nonce : Int) },
   { c with nonce := nonce })

/-- `Client::last_nonce` (`client.rs` 127-129). -/
def Client.last_nonce (c : Client) : Nat := c.nonce

/-! ## Concrete values used to instantiate the theorems -/

/-- A sample client with credentials. -/
def exClient : Client := Client.new "http://localhost:8332" (some "user") (some "pw")

/-- A sample request, with the id a fresh `exClient` would mint. -/
def exRequest : Request := { method := "getinfo", params := [], id := .num 1 }

/-- A transport whose every POST attempt fails with an aborted connection. -/
def abortingTransport : Transport :=
  { post := fun _ _ _ _ => .error (.Io .ConnectionAborted) }

/-- A transport answering every POST attempt with the given body value. -/
def respondWith (v : Json) : Transport :=
  { post := fun _ _ _ _ => .ok { readBody := .ok (.value v) } }

/-- A response body whose id matches `exRequest`. -/
def matchingBody : Json :=
  .obj [("result", .bool true), ("error", .null), ("id", .num 1)]

/-- A response body whose id does not match `exRequest`. -/
def mismatchedBody : Json :=
  .obj [("result", .bool true), ("error", .null), ("id", .num 2)]

/-- A response whose `result` field is present but holds the JSON value
`null`. -/
def respNullResult : Response :=
  { result := some .null, error := none, id := .num 81 }

/-- A response exercising both optional fields with non-null contents. -/
def exResponse : Response :=
  { result := some (.bool true),
    error := some { code := -32700, message := "Parse error", data := some (.str "d") },
    id := .num 81 }

/-! ## Theorems -/

/-- C6: for each of the five standard conditions and every optional data
argument, `standard_error` returns exactly the canonical (code, message)
pair — ParseError (-32700), InvalidRequest (-32600), MethodNotFound
(-32601), InvalidParams (-32602), InternalError (-32603) — with the data
argument carried through unchanged. -/
theorem C6_standard_error_canonical (data : Option Json) :
    standard_error .ParseError data
      = { code := -32700, message := "Parse error", data := data } ∧
    standard_error .InvalidRequest data
      = { code := -32600, message := "Invalid Request", data := data } ∧
    standard_error .MethodNotFound data
      = { code := -32601, message := "Method not found", data := data } ∧
    standard_error .InvalidParams data
      = { code := -32602, message := "Invalid params", data := data } ∧
    standard_error .InternalError data
      = { code := -32603, message := "Internal error", data := data } :=
  ⟨rfl, rfl, rfl, rfl, rfl⟩

/-- C7: `result_to_response` maps a success to a Response with only
`result` set and an `RpcError` to a Response with only `error` set, and
the given id is installed exactly as passed (a string id stays a
string). -/
theorem C7_result_to_response_exclusive (v : Json) (e : RpcError) (id : Json) :
    result_to_response (.ok v) id = { result := some v, error := none, id := id } ∧
    result_to_response (.error e) id = { result := none, error := some e, id := id } :=
  ⟨rfl, rfl⟩

/-- C8: `build_request` is pure data construction with no error
conditions (it is a total function): the built Request carries the given
method and params unchanged, and its id is the freshly incremented value
of the nonce counter, as a JSON number. -/
theorem C8_build_request_total (c : Client) (name : String) (params : List Json) :
    (c.build_request name params).1.method = name ∧
    (c.build_request name params).1.params = params ∧
    (c.build_request name params).1.id
      = .num (((c.nonce + 1) % u64Size : Nat) : Int) ∧
    (c.build_request name params).2.nonce = (c.nonce + 1) % u64Size :=
  ⟨rfl, rfl, rfl, rfl⟩

/-- Helper: `send_request` hands back the client unchanged in every
branch. -/
theorem Client.send_request_snd (c : Client) (t : Transport) (req : Request) :
    (c.send_request t req).2 = c := by
  simp only [Client.send_request]
  split <;> rfl

/-- Helper: the transport phase of `send_request`, read off lines 76-99:
the outcome is determined by the first POST attempt and — only when that
attempt failed with an aborted-connection I/O error — a single second
attempt with the same url, headers and body; any failure surfaces as
`Hyper` (Transport). -/
theorem Client.send_request_transport_phase (c : Client) (t : Transport)
    (req : Request) :
    (c.send_request t req).1 =
      (match t.post 0 c.url c.requestHeaders req.toJson with
       | .ok s => Client.processStream req s
       | .error (.Io .ConnectionAborted) =>
         (match t.post 1 c.url c.requestHeaders req.toJson with
          | .ok s => Client.processStream req s
          | .error e2 => .error (.Hyper e2))
       | .error e => .error (.Hyper e)) := by
  cases hp : t.post 0 c.url c.requestHeaders req.toJson with
  | ok s => simp [Client.send_request, hp]
  | error e =>
    cases e with
    | Io k =>
      cases k with
      | ConnectionAborted =>
        cases hq : t.post 1 c.url c.requestHeaders req.toJson with
        | ok s => simp [Client.send_request, hp, hq]
        | error e2 => simp [Client.send_request, hp, hq]
      | Other tag => simp [Client.send_request, hp]
    | Other tag => simp [Client.send_request, hp]

/-- C10: `send_request` never modifies the Client's state — the url,
credentials and nonce counter are all unchanged whether it succeeds or
fails — while `build_request` changes nothing but the nonce counter. -/
theorem C10_send_request_frame (c : Client) (t : Transport) (req : Request)
    (name : String) (params : List Json) :
    (c.send_request t req).2 = c ∧
    (c.build_request name params).2
      = { c with nonce := (c.nonce + 1) % u64Size } :=
  ⟨Client.send_request_snd c t req, rfl⟩

/-- C1: the retry policy of `send_request`. The whole call is determined
by the first POST attempt and, only after an aborted-connection I/O
failure, by exactly one retry with the same url, headers and body; the
retry's failure — of any kind — and every other first failure surface as
a `Hyper` (Transport) error; and the outcome never depends on any third
attempt (any transport agreeing on attempts 0 and 1 gives the same
result). -/
theorem C1_retry_policy (c : Client) (t : Transport) (req : Request) :
    ((c.send_request t req).1 =
      (match t.post 0 c.url c.requestHeaders req.toJson with
       | .ok s => Client.processStream req s
       | .error (.Io .ConnectionAborted) =>
         (match t.post 1 c.url c.requestHeaders req.toJson with
          | .ok s => Client.processStream req s
          | .error e2 => .error (.Hyper e2))
       | .error e => .error (.Hyper e))) ∧
    (∀ t2 : Transport,
      (∀ u hd b, t2.post 0 u hd b = t.post 0 u hd b) →
      (∀ u hd b, t2.post 1 u hd b = t.post 1 u hd b) →
      c.send_request t2 req = c.send_request t req) := by
  refine ⟨Client.send_request_transport_phase c t req, fun t2 h0 h1 => ?_⟩
  refine Prod.ext_iff.mpr ⟨?_, ?_⟩
  · rw [Client.send_request_transport_phase c t2 req,
      Client.send_request_transport_phase c t req, h0, h1]
  · rw [Client.send_request_snd, Client.send_request_snd]

/-- Witness for C1: with a transport that aborts on every attempt, the
call surfaces the second failure as a Transport error; and the theorem's
no-third-attempt part applies to that transport. -/
theorem C1_retry_policy_witness :
    (exClient.send_request abortingTransport exRequest).1
      = .error (.Hyper (.Io .ConnectionAborted)) ∧
    exClient.send_request abortingTransport exRequest
      = exClient.send_request abortingTransport exRequest :=
  ⟨((C1_retry_policy exClient abortingTransport exRequest).1).trans rfl,
   (C1_retry_policy exClient abortingTransport exRequest).2 abortingTransport
     (fun _ _ _ => rfl) (fun _ _ _ => rfl)⟩

/-- C2: once a response body decodes, `send_request` compares the decoded
id with the request id: a mismatch yields `NonceMismatch` and the decoded
Response is not returned; matching ids return the decoded Response
unchanged. -/
theorem C2_nonce_check (c : Client) (t : Transport) (req : Request)
    (s : HttpStream) (v : Json) (resp : Response)
    (hpost : t.post 0 c.url c.requestHeaders req.toJson = .ok s)
    (hbody : s.readBody = .ok (.value v))
    (hdec : Response.fromJson v = some resp) :
    (resp.id ≠ req.id → (c.send_request t req).1 = .error .NonceMismatch) ∧
    (resp.id = req.id → (c.send_request t req).1 = .ok resp) := by
  have hchar := Client.send_request_transport_phase c t req
  simp only [hpost] at hchar
  constructor
  · intro hne
    rw [hchar]
    simp [Client.processStream, hbody, hdec, hne]
  · intro heq
    rw [hchar]
    simp [Client.processStream, hbody, hdec, heq]

/-- Witness for C2: a body answering with id 2 to a request with id 1 is
rejected as `NonceMismatch`; the same body with id 1 is returned. -/
theorem C2_nonce_check_witness :
    (exClient.send_request (respondWith mismatchedBody) exRequest).1
      = .error .NonceMismatch ∧
    (exClient.send_request (respondWith matchingBody) exRequest).1
      = .ok { result := some (.bool true), error := none, id := .num 1 } :=
  ⟨(C2_nonce_check exClient (respondWith mismatchedBody) exRequest
      { readBody := .ok (.value mismatchedBody) } mismatchedBody
      { result := some (.bool true), error := none, id := .num 2 }
      rfl rfl (by decide)).1 (by decide),
   (C2_nonce_check exClient (respondWith matchingBody) exRequest
      { readBody := .ok (.value matchingBody) } matchingBody
      { result := some (.bool true), error := none, id := .num 1 }
      rfl rfl (by decide)).2 (by decide)⟩

/-- C9: `into_result` returns the Rpc error whenever the error field is
present, regardless of the result field; with error absent and a result
present it returns that result; only when both error and result are
absent does it return `NoErrorOrResult`; and `check_error` returns Ok
for any Response without an error, even one with no result either. -/
theorem C9_error_takes_precedence (r : Response) (e : RpcError) (res : Json) :
    (r.error = some e → r.into_result = .error (.Rpc e)) ∧
    (r.error = none → r.result = some res → r.into_result = .ok res) ∧
    (r.error = none → r.result = none → r.into_result = .error .NoErrorOrResult) ∧
    (r.error = none → r.check_error = .ok ()) := by
  refine ⟨fun h => ?_, fun h hr => ?_, fun h hr => ?_, fun h => ?_⟩
  · simp [Response.into_result, h]
  · simp [Response.into_result, h, hr]
  · simp [Response.into_result, h, hr]
  · simp [Response.check_error, h]

/-- Witness for C9 at concrete responses: an error next to a result still
wins; a result alone comes back as Ok; a fully empty response gives
`NoErrorOrResult` yet passes `check_error`. -/
theorem C9_error_takes_precedence_witness :
    ({ result := some (.bool true), error := some (standard_error .ParseError none),
       id := .num 1 } : Response).into_result
      = .error (.Rpc (standard_error .ParseError none)) ∧
    ({ result := some (.bool true), error := none, id := .num 1 } : Response).into_result
      = .ok (.bool true) ∧
    ({ result := none, error := none, id := .num 1 } : Response).into_result
      = .error .NoErrorOrResult ∧
    ({ result := none, error := none, id := .num 1 } : Response).check_error
      = .ok () :=
  ⟨(C9_error_takes_precedence
      { result := some (.bool true), error := some (standard_error .ParseError none),
        id := .num 1 } (standard_error .ParseError none) (.bool true)).1 rfl,
   (C9_error_takes_precedence { result := some (.bool true), error := none, id := .num 1 }
      (standard_error .ParseError none) (.bool true)).2.1 rfl rfl,
   (C9_error_takes_precedence { result := none, error := none, id := .num 1 }
      (standard_error .ParseError none) (.bool true)).2.2.1 rfl rfl,
   (C9_error_takes_precedence { result := none, error := none, id := .num 1 }
      (standard_error .ParseError none) (.bool true)).2.2.2 rfl⟩

/-- C3: away from the (unreachable) `u64` wrap point, two successive
`build_request` calls mint strictly increasing numeric ids, each one more
than the counter before it, the counter of a fresh client starts at 0,
and `last_nonce` reports the most recently issued value after each call
without changing it. -/
theorem C3_nonce_strictly_increasing (c : Client) (m1 m2 : String)
    (p1 p2 : List Json) (h : c.nonce + 2 < u64Size) :
    (c.build_request m1 p1).1.id = .num ((c.nonce + 1 : Nat) : Int) ∧
    ((c.build_request m1 p1).2.build_request m2 p2).1.id
      = .num ((c.nonce + 2 : Nat) : Int) ∧
    ((c.nonce + 1 : Nat) : Int) < ((c.nonce + 2 : Nat) : Int) ∧
    (c.build_request m1 p1).2.last_nonce = c.nonce + 1 ∧
    ((c.build_request m1 p1).2.build_request m2 p2).2.last_nonce = c.nonce + 2 ∧
    (Client.new c.url c.user c.pass).last_nonce = 0 := by
  have hs : u64Size = 18446744073709551616 := by norm_num [u64Size]
  have h1 : (c.nonce + 1) % u64Size = c.nonce + 1 := Nat.mod_eq_of_lt (by omega)
  have h2 : (c.nonce + 1 + 1) % u64Size = c.nonce + 2 := Nat.mod_eq_of_lt (by omega)
  refine ⟨?_, ?_, ?_, ?_, ?_, rfl⟩
  · simp only [Client.build_request, h1]
  · simp only [Client.build_request, h1, h2]
  · exact_mod_cast Nat.lt_succ_self (c.nonce + 1)
  · simp only [Client.build_request, Client.last_nonce, h1]
  · simp only [Client.build_request, Client.last_nonce, h1, h2]

/-- Witness for C3 on a fresh client: the first two requests get ids 1
and 2 and `last_nonce` follows. -/
theorem C3_nonce_strictly_increasing_witness :
    exClient.nonce + 2 < u64Size ∧
    (exClient.build_request "getinfo" []).1.id = .num (1 : Int) ∧
    ((exClient.build_request "getinfo" []).2.build_request "getinfo" []).2.last_nonce
      = 2 :=
  ⟨by decide,
   (C3_nonce_strictly_increasing exClient "getinfo" "getinfo" [] [] (by decide)).1,
   (C3_nonce_strictly_increasing exClient "getinfo" "getinfo" [] []
      (by decide)).2.2.2.2.1⟩

/-- Helper: serde's `Option` decoding undoes its `Option` encoding except
when the encoded value was `Some(null)`, whose encoding `null` re-decodes
as `None`. -/
theorem decodeOptionValue_optValueToJson (o : Option Json)
    (h : o ≠ some Json.null) :
    decodeOptionValue (some (optValueToJson o)) = o := by
  cases o with
  | none => rfl
  | some v => cases v <;> simp_all [optValueToJson, decodeOptionValue]

/-- Helper: the serialized form of `RpcError` as an explicit object. -/
theorem RpcError.toJson_def (e : RpcError) :
    e.toJson = .obj [("code", .num e.code), ("message", .str e.message),
                     ("data", optValueToJson e.data)] := rfl

/-- Helper: an `RpcError` whose code is in `i32` range (always true of
the Rust value) and whose data is not a present `null` deserializes back
from its serialization. -/
theorem rpcError_fromJson_of_toJson (e : RpcError) (hd : e.data ≠ some Json.null)
    (hc : -(2 ^ 31) ≤ e.code ∧ e.code < 2 ^ 31) :
    RpcError.fromJson e.toJson = some e := by
  have h1 : RpcError.fromJson e.toJson =
      (if -(2 ^ 31) ≤ e.code ∧ e.code < 2 ^ 31 then
        some ⟨e.code, e.message, decodeOptionValue (some (optValueToJson e.data))⟩
      else none) := rfl
  rw [h1, if_pos hc, decodeOptionValue_optValueToJson e.data hd]

/-- Helper: Response round-trips through serialize-then-deserialize
whenever no present optional field holds the JSON value `null` (and the
error code is in `i32` range, as the Rust type guarantees). -/
theorem response_fromJson_of_toJson (r : Response)
    (hres : r.result ≠ some Json.null)
    (herr : ∀ e, r.error = some e →
      e.data ≠ some Json.null ∧ (-(2 ^ 31) ≤ e.code ∧ e.code < 2 ^ 31)) :
    Response.fromJson r.toJson = some r := by
  obtain ⟨res, err, idv⟩ := r
  cases err with
  | none =>
    have h1 : Response.fromJson (Response.toJson ⟨res, none, idv⟩) =
        some ⟨decodeOptionValue (some (optValueToJson res)), none, idv⟩ := rfl
    rw [h1, decodeOptionValue_optValueToJson res hres]
  | some e =>
    obtain ⟨hd, hc⟩ := herr e rfl
    have he : RpcError.fromJson (RpcError.toJson e) = some e :=
      rpcError_fromJson_of_toJson e hd hc
    have h2 : decodeOptionRpcError (some (RpcError.toJson e)) = some (some e) := by
      rw [RpcError.toJson_def]
      rw [show decodeOptionRpcError (some (Json.obj
            [("code", Json.num e.code), ("message", Json.str e.message),
             ("data", optValueToJson e.data)]))
          = (match RpcError.fromJson (Json.obj
              [("code", Json.num e.code), ("message", Json.str e.message),
               ("data", optValueToJson e.data)]) with
             | some e2 => some (some e2)
             | none => none) from rfl]
      rw [← RpcError.toJson_def, he]
    have h1 : Response.fromJson (Response.toJson ⟨res, some e, idv⟩) =
        (match decodeOptionRpcError (some (RpcError.toJson e)) with
         | none => none
         | some err2 =>
           some ⟨decodeOptionValue (some (optValueToJson res)), err2, idv⟩) := rfl
    rw [h1, h2, decodeOptionValue_optValueToJson res hres]

/-- Counterexample to C4 as stated: the Response with `result` present
and equal to JSON `null` does not survive the round trip — its `result`
comes back absent. -/
theorem C4_roundtrip_counterexample :
    Response.fromJson (Response.toJson respNullResult)
      = some { result := none, error := none, id := .num 81 } ∧
    Response.fromJson (Response.toJson respNullResult) ≠ some respNullResult :=
  ⟨rfl, by decide⟩

/-- C4 (amended): serialize-then-deserialize returns the original
Response for every Response, over all four permutations of result/error
presence, provided no present optional field holds the JSON value `null`
(a present `null` re-decodes as absent); and the serialized `RpcError`
always carries the three fields `code`, `message` and `data`, with
`data` serialized as `null` when absent. -/
theorem C4_roundtrip (resp : Response)
    (hres : resp.result ≠ some Json.null)
    (herr : ∀ e, resp.error = some e →
      e.data ≠ some Json.null ∧ (-(2 ^ 31) ≤ e.code ∧ e.code < 2 ^ 31)) :
    Response.fromJson (Response.toJson resp) = some resp ∧
    (∀ e : RpcError, ∃ fields,
      RpcError.toJson e = .obj fields ∧
      lookupField fields "code" = some (.num e.code) ∧
      lookupField fields "message" = some (.str e.message) ∧
      lookupField fields "data" = some (optValueToJson e.data)) ∧
    optValueToJson none = Json.null :=
  ⟨response_fromJson_of_toJson resp hres herr,
   fun e => ⟨[("code", .num e.code), ("message", .str e.message),
              ("data", optValueToJson e.data)], rfl, rfl, rfl, rfl⟩, rfl⟩

/-- Witness for C4 (amended) at a concrete two-field Response. -/
theorem C4_roundtrip_witness :
    exResponse.result ≠ some Json.null ∧
    Response.fromJson (Response.toJson exResponse) = some exResponse :=
  ⟨by decide,
   (C4_roundtrip exResponse (by decide)
     (fun e he => by
       have he2 : some (⟨-32700, "Parse error", some (.str "d")⟩ : RpcError)
           = some e := he
       have h3 := Option.some.inj he2
       subst h3
       exact ⟨by decide, by decide⟩)).1⟩

/-- C5: decoding is lenient about the result/error fields — a body with
neither decodes (with `NoErrorOrResult` raised only by `into_result`),
and a body with both decodes with both fields populated (any present
non-null result, and any error value that decodes as an `RpcError`). -/
theorem C5_lenient_decode (idv r ev : Json) (e : RpcError)
    (he : RpcError.fromJson ev = some e) :
    Response.fromJson (.obj [("id", idv)]) = some ⟨none, none, idv⟩ ∧
    Response.into_result ⟨none, none, idv⟩ = .error .NoErrorOrResult ∧
    Response.fromJson (.obj [("result", r), ("error", ev), ("id", idv)])
      = some ⟨decodeOptionValue (some r), some e, idv⟩ ∧
    (r ≠ Json.null → decodeOptionValue (some r) = some r) := by
  refine ⟨rfl, rfl, ?_, fun hr => ?_⟩
  · cases ev with
    | null => simp [RpcError.fromJson] at he
    | bool b => simp [Response.fromJson, lookupField, decodeOptionRpcError, he]
    | num n => simp [Response.fromJson, lookupField, decodeOptionRpcError, he]
    | str s => simp [Response.fromJson, lookupField, decodeOptionRpcError, he]
    | arr xs => simp [Response.fromJson, lookupField, decodeOptionRpcError, he]
    | obj fs => simp [Response.fromJson, lookupField, decodeOptionRpcError, he]
  · cases r <;> simp_all [decodeOptionValue]

/-- Witness for C5 at concrete bodies: id only, and result plus a
standard parse error. -/
theorem C5_lenient_decode_witness :
    Response.fromJson (.obj [("id", .num 7)]) = some ⟨none, none, .num 7⟩ ∧
    Response.fromJson (.obj [("result", .bool true),
        ("error", RpcError.toJson (standard_error .ParseError none)),
        ("id", .num 7)])
      = some ⟨some (.bool true), some (standard_error .ParseError none), .num 7⟩ :=
  ⟨(C5_lenient_decode (.num 7) (.bool true)
      (RpcError.toJson (standard_error .ParseError none))
      (standard_error .ParseError none) (by decide)).1,
   (C5_lenient_decode (.num 7) (.bool true)
      (RpcError.toJson (standard_error .ParseError none))
      (standard_error .ParseError none) (by decide)).2.2.1⟩

end Stratum
